import Mathlib

/-!
A shallow embedding of `src/js/main.js` of the open-drop repository: a
single-process WebRTC demo with two peer connections (local and remote), an
in-process ICE candidate relay, a 4-step offer/answer handshake and three UI
actions (start, call, hangup).

Modelling decisions:
* The module-level mutable globals (`localPeerConnection`,
  `remotePeerConnection`, `localStream`, `startTime`, the three button
  disabled flags) become fields of an explicit `AppState` record, threaded
  through every function.
* JavaScript object identity of peer-connection objects is modelled by a
  heap: a list of `(Nat, PeerConnection)` pairs; a nullable object reference
  is an `Option Nat`.  `pc === localPeerConnection` becomes an equality test
  of the event target id against the `localPC` field.
* Every `await` of an external asynchronous primitive (getUserMedia,
  createOffer, createAnswer, setLocalDescription, setRemoteDescription,
  addIceCandidate) is resolved by an explicit outcome argument; the state
  mutations and log writes around it follow the source order exactly.
  Calling a method on a null reference yields `JsError.typeError` at that
  point, as in JavaScript.
* `trace` output is modelled as an appended list of message strings; the
  timestamp prefix, which no claim depends on, is dropped.
* Functions out of which a JavaScript exception can escape return
  `AppState x Option JsError`: the state holds all mutations made before the
  throw.  Functions whose every failure is caught internally return a plain
  `AppState`.
* Calls the relay actually makes to `addIceCandidate` are recorded in the
  `addIceCalls` field as `(target id, candidate)` pairs, newest first.
-/

namespace OpenDrop

/-- A session description: a role tag plus the opaque sdp blob. -/
structure SessionDescription where
  descType : String
  sdp : String
  deriving Repr, DecidableEq

/-- A media stream, reduced to the track labels the code reads. -/
structure MediaStream where
  videoTrackLabels : List String := []
  audioTrackLabels : List String := []
  deriving Repr, DecidableEq

/-- One RTCPeerConnection object: descriptions, ingested candidates, added
tracks and the closed flag. -/
structure PeerConnection where
  localDescription : Option SessionDescription := none
  remoteDescription : Option SessionDescription := none
  candidates : List String := []
  tracks : List String := []
  closed : Bool := false
  deriving Repr, DecidableEq

/-- An error escaping a JavaScript operation: a TypeError from dereferencing
null/undefined, or a rejected promise from the underlying platform. -/
inductive JsError where
  | typeError
  | rejection
  deriving Repr, DecidableEq

/-- The module-level mutable state of `main.js`. -/
structure AppState where
  heap : List (Nat × PeerConnection) := []
  localPC : Option Nat := none
  remotePC : Option Nat := none
  localStream : Option MediaStream := none
  startTime : Option Nat := none
  startButtonDisabled : Bool := false
  callButtonDisabled : Bool := true
  hangupButtonDisabled : Bool := true
  nextId : Nat := 0
  addIceCalls : List (Nat × String) := []
  log : List String := []
  deriving Repr, DecidableEq

/-- An icecandidate event: the emitting peer connection and the optional
candidate (none is the end-of-candidates marker). -/
structure IceEvent where
  target : Nat
  candidate : Option String
  deriving Repr, DecidableEq

/-- Heap lookup by object id. -/
def heapGet (h : List (Nat × PeerConnection)) (i : Nat) : Option PeerConnection :=
  match h with
  | [] => none
  | (j, pc) :: t => if j = i then some pc else heapGet t i

/-- Heap update: apply `f` to the object with id `i`. -/
def heapModify (h : List (Nat × PeerConnection)) (i : Nat)
    (f : PeerConnection → PeerConnection) : List (Nat × PeerConnection) :=
  match h with
  | [] => []
  | (j, pc) :: t => (j, if j = i then f pc else pc) :: heapModify t i f

/-- The `trace` logger of `main.js`, without the timestamp prefix. -/
def addTrace (s : AppState) (msg : String) : AppState :=
  { s with log := s.log ++ [msg] }

/-- Source `getOtherPeer`: `(pc === localPeerConnection) ? remotePeerConnection
: localPeerConnection`. -/
def getOtherPeer (s : AppState) (pc : Nat) : Option Nat :=
  if s.localPC = some pc then s.remotePC else s.localPC

/-- Source `getPeerName`: `(pc === localPeerConnection) ? 'localPeerConnection'
: 'remotePeerConnection'`. -/
def getPeerName (s : AppState) (pc : Nat) : String :=
  if s.localPC = some pc then "localPeerConnection" else "remotePeerConnection"

/-- Source `handleConnectionSuccess`: logs that addIceCandidate succeeded. -/
def handleConnectionSuccess (s : AppState) (pc : Nat) : AppState :=
  addTrace s (getPeerName s pc ++ " addIceCandidate success.")

/-- Source `handleConnectionFailure`: logs that addIceCandidate failed. -/
def handleConnectionFailure (s : AppState) (pc : Nat) : AppState :=
  addTrace s (getPeerName s pc ++ " failed to add ICE Candidate.")

/-- Source `handleConnection`: the candidate relay.  On an event with a
candidate, resolves the other peer and awaits its `addIceCandidate` inside a
try/catch; a null other peer makes the awaited call throw a TypeError, which
the same catch receives.  `addOk` resolves the platform outcome of a real
`addIceCandidate` call.  Every escape path is caught, so no error leaves this
function. -/
def handleConnection (ev : IceEvent) (addOk : Bool) (s : AppState) : AppState :=
  match ev.candidate with
  | none => s
  | some c =>
    let s1 :=
      match getOtherPeer s ev.target with
      | none => handleConnectionFailure s ev.target
      | some o =>
        let s0 : AppState := { s with addIceCalls := (o, c) :: s.addIceCalls }
        if addOk then
          let h := heapModify s0.heap o (fun pc => { pc with candidates := pc.candidates ++ [c] })
          handleConnectionSuccess { s0 with heap := h } ev.target
        else
          handleConnectionFailure s0 ev.target
    addTrace s1 (getPeerName s1 ev.target ++ " ICE candidate:\n" ++ c)

/-- The `error.toString()` rendering used in the log lines. -/
def JsError.toMessage : JsError → String
  | .typeError => "TypeError"
  | .rejection => "OperationError"

/-- Source `setSessionDescriptionError`: logs a failed description step. -/
def setSessionDescriptionError (s : AppState) (err : JsError) : AppState :=
  addTrace s ("Failed to create session description: " ++ err.toMessage ++ ".")

/-- Platform outcomes for the three awaited steps inside `createdOffer`:
Local.setLocalDescription, Remote.setRemoteDescription and
Remote.createAnswer (some answer on success, none on rejection). -/
structure OfferOutcomes where
  setLocalOk : Bool
  setRemoteOk : Bool
  createAnswerResult : Option SessionDescription
  deriving Repr, DecidableEq

/-- Platform outcomes for the two awaited steps inside `createdAnswer`:
Remote.setLocalDescription and Local.setRemoteDescription. -/
structure AnswerOutcomes where
  setLocalOk : Bool
  setRemoteOk : Bool
  deriving Repr, DecidableEq

/-- Source `createdAnswer`: stage 3b/4 of the handshake.  Remote sets the
answer as its local description, then Local sets it as its remote
description; each await sits in its own try/catch, a failed or null-target
step only logs. -/
def createdAnswer (ao : AnswerOutcomes) (desc : SessionDescription) (s : AppState) : AppState :=
  let s := addTrace s ("Answer from remotePeerConnection:\n" ++ desc.sdp)
  let s := addTrace s "remotePeerConnection setLocalDescription start."
  let s :=
    match s.remotePC with
    | none => setSessionDescriptionError s JsError.typeError
    | some i =>
      if ao.setLocalOk then
        let h := heapModify s.heap i (fun pc => { pc with localDescription := some desc })
        let s := { s with heap := h }
        addTrace s (getPeerName s i ++ " setLocalDescription complete.")
      else setSessionDescriptionError s JsError.rejection
  let s := addTrace s "localPeerConnection setRemoteDescription start."
  match s.localPC with
  | none => setSessionDescriptionError s JsError.typeError
  | some i =>
    if ao.setRemoteOk then
      let h := heapModify s.heap i (fun pc => { pc with remoteDescription := some desc })
      let s := { s with heap := h }
      addTrace s (getPeerName s i ++ " setRemoteDescription complete.")
    else setSessionDescriptionError s JsError.rejection

/-- Source `createdOffer`: stages 1-3 of the handshake.  Local sets the offer
as its local description, Remote sets it as its remote description, then
Remote creates an answer which is handed to `createdAnswer`.  Each await sits
in its own try/catch; a failure is logged and the next stage still runs. -/
def createdOffer (oo : OfferOutcomes) (ao : AnswerOutcomes) (desc : SessionDescription)
    (s : AppState) : AppState :=
  let s := addTrace s ("Offer from localPeerConnection:\n" ++ desc.sdp)
  let s := addTrace s "localPeerConnection setLocalDescription start."
  let s :=
    match s.localPC with
    | none => setSessionDescriptionError s JsError.typeError
    | some i =>
      if oo.setLocalOk then
        let h := heapModify s.heap i (fun pc => { pc with localDescription := some desc })
        let s := { s with heap := h }
        addTrace s (getPeerName s i ++ " setLocalDescription complete.")
      else setSessionDescriptionError s JsError.rejection
  let s := addTrace s "remotePeerConnection setRemoteDescription start"
  let s :=
    match s.remotePC with
    | none => setSessionDescriptionError s JsError.typeError
    | some i =>
      if oo.setRemoteOk then
        let h := heapModify s.heap i (fun pc => { pc with remoteDescription := some desc })
        let s := { s with heap := h }
        addTrace s (getPeerName s i ++ " setRemoteDescription complete.")
      else setSessionDescriptionError s JsError.rejection
  let s := addTrace s "remotePeerConnection createAnswer start."
  match s.remotePC with
  | none => setSessionDescriptionError s JsError.typeError
  | some _ =>
    match oo.createAnswerResult with
    | some ans => createdAnswer ao ans s
    | none => setSessionDescriptionError s JsError.rejection

/-- Source `gotLocalMediaStream`: stores the stream and enables the call
button. -/
def gotLocalMediaStream (ms : MediaStream) (s : AppState) : AppState :=
  let s := { s with localStream := some ms }
  let s := addTrace s "Received local stream"
  { s with callButtonDisabled := false }

/-- Source `handleLocalMediaStreamError`: only logs. -/
def handleLocalMediaStreamError (s : AppState) : AppState :=
  addTrace s "navigator.getUserMedia error."

/-- Source `startAction`: disables the start button, awaits getUserMedia
(outcome given by `mediaResult`), and on success hands the stream to
`gotLocalMediaStream`; the failure branch only logs. -/
def startAction (mediaResult : Option MediaStream) (s : AppState) : AppState :=
  let s := addTrace s "Requesting local stream."
  let s := { s with startButtonDisabled := true }
  match mediaResult with
  | some ms => gotLocalMediaStream ms s
  | none => handleLocalMediaStreamError s

/-- A freshly constructed RTCPeerConnection. -/
def newPeerConnection : PeerConnection := {}

/-- Source `callAction`: flips the call/hangup buttons, records the start
time, reads the local stream tracks (a TypeError escapes here when no stream
was acquired), creates both peer connections, adds the local tracks, and
awaits createOffer (outcome `offerResult`), handing a successful offer to
`createdOffer`.  The returned option is the error escaping the whole call, if
any. -/
def callAction (now : Nat) (offerResult : Option SessionDescription)
    (oo : OfferOutcomes) (ao : AnswerOutcomes) (s : AppState) :
    AppState × Option JsError :=
  let s := { s with callButtonDisabled := true }
  let s := { s with hangupButtonDisabled := false }
  let s := addTrace s "Starting call"
  let s := { s with startTime := some now }
  match s.localStream with
  | none => (s, some JsError.typeError)
  | some ms =>
    let s :=
      match ms.videoTrackLabels with
      | [] => s
      | lab :: _ => addTrace s ("Using video device: " ++ lab ++ ".")
    let s :=
      match ms.audioTrackLabels with
      | [] => s
      | lab :: _ => addTrace s ("Using audio device: " ++ lab)
    let lid := s.nextId
    let rid := s.nextId + 1
    let s := { s with heap := s.heap ++ [(lid, newPeerConnection)], localPC := some lid, nextId := s.nextId + 1 }
    let s := addTrace s "Created local peer connection object localPeerConnection."
    let s := { s with heap := s.heap ++ [(rid, newPeerConnection)], remotePC := some rid, nextId := s.nextId + 1 }
    let s := addTrace s "Created remote peer connection object remotePeerConnection."
    let h := heapModify s.heap lid (fun pc => { pc with tracks := pc.tracks ++ ms.videoTrackLabels ++ ms.audioTrackLabels })
    let s := { s with heap := h }
    let s := addTrace s "Added local stream to localPeerConnection."
    let s := addTrace s "localPeerConnection createOffer start."
    match offerResult with
    | some offer => (createdOffer oo ao offer s, none)
    | none => (setSessionDescriptionError s JsError.rejection, none)

/-- Source `hangupAction`: closes both peer connections, nulls the
references, disables the hangup button, re-enables the call button.  A null
reference makes the corresponding `close()` throw a TypeError that escapes
(nothing in `hangupAction` catches). -/
def hangupAction (s : AppState) : AppState × Option JsError :=
  match s.localPC with
  | none => (s, some JsError.typeError)
  | some lid =>
    let s := { s with heap := heapModify s.heap lid (fun pc => { pc with closed := true }) }
    match s.remotePC with
    | none => (s, some JsError.typeError)
    | some rid =>
      let s := { s with heap := heapModify s.heap rid (fun pc => { pc with closed := true }) }
      let s := { s with localPC := none, remotePC := none }
      let s := { s with hangupButtonDisabled := true }
      let s := { s with callButtonDisabled := false }
      (addTrace s "Ending call.", none)

/-! Concrete states used to witness the theorems. -/

/-- A one-video-track stream, as in the demo. -/
def demoStream : MediaStream := { videoTrackLabels := ["cam"], audioTrackLabels := [] }

/-- The page just loaded: no stream, no peer connections, call and hangup
buttons disabled. -/
def idleState : AppState := {}

/-- A state in the middle of a call: both peer connections exist, the stream
is held, the hangup button is enabled. -/
def twoPeerState : AppState :=
  { heap := [(0, newPeerConnection), (1, newPeerConnection)]
    localPC := some 0
    remotePC := some 1
    localStream := some demoStream
    callButtonDisabled := true
    hangupButtonDisabled := false
    nextId := 2 }

/-- The stubbed offer of the spec scenario. -/
def offerDesc : SessionDescription := { descType := "offer", sdp := "O1" }

/-- The stubbed answer of the spec scenario. -/
def answerDesc : SessionDescription := { descType := "answer", sdp := "A1" }

/-- All offer-side steps succeed, producing `answerDesc`. -/
def okOffer : OfferOutcomes :=
  { setLocalOk := true, setRemoteOk := true, createAnswerResult := some answerDesc }

/-- All answer-side steps succeed. -/
def okAnswer : AnswerOutcomes := { setLocalOk := true, setRemoteOk := true }

/-! Heap lemmas. -/

theorem heapGet_heapModify_same (h : List (Nat × PeerConnection)) (i : Nat)
    (f : PeerConnection → PeerConnection) :
    heapGet (heapModify h i f) i = (heapGet h i).map f := by
  induction h with
  | nil => rfl
  | cons p t ih =>
    obtain ⟨j, pc⟩ := p
    by_cases hji : j = i
    · subst hji
      simp [heapGet, heapModify]
    · simp [heapGet, heapModify, hji, ih]

theorem heapGet_heapModify_ne (h : List (Nat × PeerConnection)) (i j : Nat)
    (f : PeerConnection → PeerConnection) (hij : i ≠ j) :
    heapGet (heapModify h j f) i = heapGet h i := by
  induction h with
  | nil => rfl
  | cons p t ih =>
    obtain ⟨k, pc⟩ := p
    by_cases hkj : k = j
    · subst hkj
      have : k ≠ i := fun hk => hij (hk ▸ rfl)
      simp [heapGet, heapModify, this, ih]
    · by_cases hki : k = i
      · subst hki
        simp [heapGet, heapModify, hkj]
      · simp [heapGet, heapModify, hkj, hki, ih]

/-! Theorems for the claims. -/

/-- C8: a candidate-discovery event carrying no candidate (the
end-of-candidates marker) is a complete no-op for the relay: no
addIceCandidate call is made and the whole state is unchanged. -/
theorem relay_no_candidate_noop (t : Nat) (addOk : Bool) (s : AppState) :
    handleConnection ⟨t, none⟩ addOk s = s := rfl

/-- C2: whenever the two peer-connection references are distinct and both
set, a candidate-discovery event from any endpoint makes exactly one
addIceCandidate call, on the peer resolved by `getOtherPeer`, and that peer
is never the producing endpoint. -/
theorem relay_target_ne_source (s : AppState) (l r t : Nat) (c : String) (addOk : Bool)
    (hl : s.localPC = some l) (hr : s.remotePC = some r) (hlr : l ≠ r) :
    ∃ o, getOtherPeer s t = some o ∧ o ≠ t ∧
      (handleConnection ⟨t, some c⟩ addOk s).addIceCalls = (o, c) :: s.addIceCalls := by
  by_cases hlt : l = t
  · subst hlt
    refine ⟨r, ?_, ?_, ?_⟩
    · simp [getOtherPeer, hl, hr]
    · exact fun h => hlr h.symm
    · cases addOk <;>
        simp [handleConnection, getOtherPeer, hl, hr, handleConnectionSuccess,
          handleConnectionFailure, addTrace]
  · refine ⟨l, ?_, fun h => hlt h, ?_⟩
    · simp [getOtherPeer, hl, hlt]
    · cases addOk <;>
        simp [handleConnection, getOtherPeer, hl, hlt, handleConnectionSuccess,
          handleConnectionFailure, addTrace]

/-- Witness for C2 at a concrete connected state and candidate. -/
theorem relay_target_ne_source_witness :
    ∃ o, getOtherPeer twoPeerState 0 = some o ∧ o ≠ 0 ∧
      (handleConnection ⟨0, some "c1"⟩ true twoPeerState).addIceCalls =
        (o, "c1") :: twoPeerState.addIceCalls :=
  relay_target_ne_source twoPeerState 0 1 0 "c1" true rfl rfl (by decide)

/-- C1: when all four handshake steps succeed, the Local endpoint ends with
the offer as its local description and the answer as its remote description,
and the Remote endpoint ends with the offer as its remote description and the
answer as its local description; hence Local.localDescription equals
Remote.remoteDescription and Remote.localDescription equals
Local.remoteDescription. -/
theorem handshake_descriptions_agree (s : AppState) (l r : Nat)
    (pcl pcr : PeerConnection) (offer ans : SessionDescription)
    (oo : OfferOutcomes) (ao : AnswerOutcomes)
    (hl : s.localPC = some l) (hr : s.remotePC = some r) (hlr : l ≠ r)
    (hgl : heapGet s.heap l = some pcl) (hgr : heapGet s.heap r = some pcr)
    (h1 : oo.setLocalOk = true) (h2 : oo.setRemoteOk = true)
    (h3 : oo.createAnswerResult = some ans)
    (h4 : ao.setLocalOk = true) (h5 : ao.setRemoteOk = true) :
    ∃ pcl2 pcr2 : PeerConnection,
      heapGet (createdOffer oo ao offer s).heap l = some pcl2 ∧
      heapGet (createdOffer oo ao offer s).heap r = some pcr2 ∧
      pcl2.localDescription = some offer ∧
      pcr2.remoteDescription = some offer ∧
      pcr2.localDescription = some ans ∧
      pcl2.remoteDescription = some ans ∧
      pcl2.localDescription = pcr2.remoteDescription ∧
      pcr2.localDescription = pcl2.remoteDescription := by
  refine ⟨{ pcl with localDescription := some offer, remoteDescription := some ans },
          { pcr with remoteDescription := some offer, localDescription := some ans },
          ?_, ?_, rfl, rfl, rfl, rfl, rfl, rfl⟩ <;>
    simp [createdOffer, createdAnswer, addTrace, setSessionDescriptionError, getPeerName,
      hl, hr, h1, h2, h3, h4, h5, heapGet_heapModify_same, heapGet_heapModify_ne,
      hlr, hlr.symm, hgl, hgr]

/-- Witness for C1 at a concrete connected state with the stubbed offer and
answer of the spec scenario. -/
theorem handshake_descriptions_agree_witness :
    ∃ pcl2 pcr2 : PeerConnection,
      heapGet (createdOffer okOffer okAnswer offerDesc twoPeerState).heap 0 = some pcl2 ∧
      heapGet (createdOffer okOffer okAnswer offerDesc twoPeerState).heap 1 = some pcr2 ∧
      pcl2.localDescription = some offerDesc ∧
      pcr2.remoteDescription = some offerDesc ∧
      pcr2.localDescription = some answerDesc ∧
      pcl2.remoteDescription = some answerDesc ∧
      pcl2.localDescription = pcr2.remoteDescription ∧
      pcr2.localDescription = pcl2.remoteDescription :=
  handshake_descriptions_agree twoPeerState 0 1 newPeerConnection newPeerConnection
    offerDesc answerDesc okOffer okAnswer rfl rfl (by decide) rfl rfl rfl rfl rfl rfl rfl

/-! Preservation lemmas: the handshake functions never touch the
peer-connection references. -/

theorem createdAnswer_localPC (ao : AnswerOutcomes) (d : SessionDescription) (s : AppState) :
    (createdAnswer ao d s).localPC = s.localPC := by
  cases hrp : s.remotePC <;> cases hlp : s.localPC <;>
    cases h4 : ao.setLocalOk <;> cases h5 : ao.setRemoteOk <;>
      simp [createdAnswer, addTrace, setSessionDescriptionError, getPeerName, hrp, hlp, h4, h5]

theorem createdAnswer_remotePC (ao : AnswerOutcomes) (d : SessionDescription) (s : AppState) :
    (createdAnswer ao d s).remotePC = s.remotePC := by
  cases hrp : s.remotePC <;> cases hlp : s.localPC <;>
    cases h4 : ao.setLocalOk <;> cases h5 : ao.setRemoteOk <;>
      simp [createdAnswer, addTrace, setSessionDescriptionError, getPeerName, hrp, hlp, h4, h5]

theorem createdOffer_localPC (oo : OfferOutcomes) (ao : AnswerOutcomes)
    (d : SessionDescription) (s : AppState) :
    (createdOffer oo ao d s).localPC = s.localPC := by
  cases hlp : s.localPC <;> cases hrp : s.remotePC <;>
    cases h1 : oo.setLocalOk <;> cases h2 : oo.setRemoteOk <;>
      cases h3 : oo.createAnswerResult <;>
        simp [createdOffer, addTrace, setSessionDescriptionError, getPeerName,
          createdAnswer_localPC, hlp, hrp, h1, h2, h3]

theorem createdOffer_remotePC (oo : OfferOutcomes) (ao : AnswerOutcomes)
    (d : SessionDescription) (s : AppState) :
    (createdOffer oo ao d s).remotePC = s.remotePC := by
  cases hlp : s.localPC <;> cases hrp : s.remotePC <;>
    cases h1 : oo.setLocalOk <;> cases h2 : oo.setRemoteOk <;>
      cases h3 : oo.createAnswerResult <;>
        simp [createdOffer, addTrace, setSessionDescriptionError, getPeerName,
          createdAnswer_remotePC, hlp, hrp, h1, h2, h3]

/-- C3 counterexample: a second hangup on the state a first hangup left
behind raises a TypeError (the null local reference is dereferenced), so the
second invocation is not an error-free no-op. -/
theorem hangup_second_call_raises_counterexample :
    (hangupAction (hangupAction twoPeerState).fst).snd = some JsError.typeError := rfl

/-- C3, amended: a first hangup from a state with both peer connections
present succeeds, and a second invocation leaves the terminal state unchanged
but raises a TypeError instead of being an error-free no-op. -/
theorem hangup_second_call_same_state_but_errors (s : AppState) (l r : Nat)
    (hl : s.localPC = some l) (hr : s.remotePC = some r) :
    (hangupAction s).snd = none ∧
    hangupAction (hangupAction s).fst = ((hangupAction s).fst, some JsError.typeError) := by
  simp [hangupAction, hl, hr, addTrace]

/-- Witness for the amended C3 at a concrete in-call state. -/
theorem hangup_second_call_same_state_but_errors_witness :
    (hangupAction twoPeerState).snd = none ∧
    hangupAction (hangupAction twoPeerState).fst =
      ((hangupAction twoPeerState).fst, some JsError.typeError) :=
  hangup_second_call_same_state_but_errors twoPeerState 0 1 rfl rfl

/-- C4 counterexample: invoking the call action before any media stream was
acquired is not a no-op: it raises a TypeError (not a precondition check) and
the resulting state differs from the idle state it started in (the call
trigger is disabled, the hangup trigger enabled, the start time set). -/
theorem connect_before_start_not_noop_counterexample :
    (callAction 5 (some offerDesc) okOffer okAnswer idleState).snd = some JsError.typeError ∧
    (callAction 5 (some offerDesc) okOffer okAnswer idleState).fst ≠ idleState := by
  decide

/-- C4, amended: invoking connect before start fails with a TypeError from
dereferencing the absent media stream, and no peer connections are created;
but the operation is not a no-op: before failing it disables the connect
trigger, enables the hangup trigger and records the start time. -/
theorem connect_without_stream_fails (s : AppState) (now : Nat)
    (orr : Option SessionDescription) (oo : OfferOutcomes) (ao : AnswerOutcomes)
    (hms : s.localStream = none) :
    (callAction now orr oo ao s).snd = some JsError.typeError ∧
    (callAction now orr oo ao s).fst.localPC = s.localPC ∧
    (callAction now orr oo ao s).fst.remotePC = s.remotePC ∧
    (callAction now orr oo ao s).fst.heap = s.heap ∧
    (callAction now orr oo ao s).fst.callButtonDisabled = true ∧
    (callAction now orr oo ao s).fst.hangupButtonDisabled = false ∧
    (callAction now orr oo ao s).fst.startTime = some now := by
  simp [callAction, addTrace, hms]

/-- Witness for the amended C4 at the idle page state. -/
theorem connect_without_stream_fails_witness :
    (callAction 5 (some offerDesc) okOffer okAnswer idleState).snd = some JsError.typeError ∧
    (callAction 5 (some offerDesc) okOffer okAnswer idleState).fst.localPC = idleState.localPC ∧
    (callAction 5 (some offerDesc) okOffer okAnswer idleState).fst.remotePC = idleState.remotePC ∧
    (callAction 5 (some offerDesc) okOffer okAnswer idleState).fst.heap = idleState.heap ∧
    (callAction 5 (some offerDesc) okOffer okAnswer idleState).fst.callButtonDisabled = true ∧
    (callAction 5 (some offerDesc) okOffer okAnswer idleState).fst.hangupButtonDisabled = false ∧
    (callAction 5 (some offerDesc) okOffer okAnswer idleState).fst.startTime = some 5 :=
  connect_without_stream_fails idleState 5 (some offerDesc) okOffer okAnswer rfl

/-- C5 counterexample: invoking hangup in the idle state, before any call,
raises a TypeError, so hangup does not terminate cleanly in every session
state. -/
theorem hangup_on_idle_raises_counterexample :
    (hangupAction idleState).snd = some JsError.typeError := rfl

/-- C5, amended: hangup from a state with both peer connections present
terminates cleanly, and a candidate-relay delivery that resolves after the
hangup is absorbed by the relay's catch handler: no addIceCandidate call is
made, the heap is untouched, and the failure is merely logged. -/
theorem hangup_clean_late_candidates_absorbed (s : AppState) (l r : Nat)
    (hl : s.localPC = some l) (hr : s.remotePC = some r)
    (t : Nat) (c : String) (addOk : Bool) :
    (hangupAction s).snd = none ∧
    (handleConnection ⟨t, some c⟩ addOk (hangupAction s).fst).addIceCalls =
      (hangupAction s).fst.addIceCalls ∧
    (handleConnection ⟨t, some c⟩ addOk (hangupAction s).fst).heap =
      (hangupAction s).fst.heap ∧
    (handleConnection ⟨t, some c⟩ addOk (hangupAction s).fst).log =
      (hangupAction s).fst.log ++
        ["remotePeerConnection failed to add ICE Candidate.",
         "remotePeerConnection ICE candidate:\n" ++ c] := by
  simp [hangupAction, hl, hr, addTrace, handleConnection, getOtherPeer, getPeerName,
    handleConnectionFailure]

/-- Witness for the amended C5: hangup from the in-call state, then a late
candidate event from the old local peer connection. -/
theorem hangup_clean_late_candidates_absorbed_witness :
    (hangupAction twoPeerState).snd = none ∧
    (handleConnection ⟨0, some "c9"⟩ true (hangupAction twoPeerState).fst).addIceCalls =
      (hangupAction twoPeerState).fst.addIceCalls ∧
    (handleConnection ⟨0, some "c9"⟩ true (hangupAction twoPeerState).fst).heap =
      (hangupAction twoPeerState).fst.heap ∧
    (handleConnection ⟨0, some "c9"⟩ true (hangupAction twoPeerState).fst).log =
      (hangupAction twoPeerState).fst.log ++
        ["remotePeerConnection failed to add ICE Candidate.",
         "remotePeerConnection ICE candidate:\nc9"] :=
  hangup_clean_late_candidates_absorbed twoPeerState 0 1 rfl rfl 0 "c9" true

/-- C9: when media acquisition fails during start, the start trigger stays
disabled (it was disabled before the acquisition and the failure branch never
re-enables it), the connect trigger stays disabled, and no stream is stored,
so the failed start cannot be retried through the same control. -/
theorem failed_start_keeps_triggers_disabled (s : AppState)
    (hcb : s.callButtonDisabled = true) :
    (startAction none s).startButtonDisabled = true ∧
    (startAction none s).callButtonDisabled = true ∧
    (startAction none s).localStream = s.localStream := by
  simp [startAction, handleLocalMediaStreamError, addTrace, hcb]

/-- Witness for C9 at the idle page state. -/
theorem failed_start_keeps_triggers_disabled_witness :
    (startAction none idleState).startButtonDisabled = true ∧
    (startAction none idleState).callButtonDisabled = true ∧
    (startAction none idleState).localStream = idleState.localStream :=
  failed_start_keeps_triggers_disabled idleState rfl

/-- C6: when stage 2 of the handshake (Remote.setRemoteDescription) fails,
the failure is caught and logged, stage 3 (Remote.createAnswer) is still
attempted — its start line is logged — and the produced answer is still set
as Remote's local description, while Remote's remote description keeps its
pre-handshake value. -/
theorem stage2_failure_logged_stage3_attempted (s : AppState) (l r : Nat)
    (pcr : PeerConnection) (offer ans : SessionDescription)
    (oo : OfferOutcomes) (ao : AnswerOutcomes)
    (hl : s.localPC = some l) (hr : s.remotePC = some r) (hlr : l ≠ r)
    (hgr : heapGet s.heap r = some pcr)
    (h2 : oo.setRemoteOk = false)
    (h3 : oo.createAnswerResult = some ans)
    (h4 : ao.setLocalOk = true) :
    ("Failed to create session description: " ++ JsError.toMessage JsError.rejection ++ ".") ∈
        (createdOffer oo ao offer s).log ∧
    "remotePeerConnection createAnswer start." ∈ (createdOffer oo ao offer s).log ∧
    ∃ pcr2, heapGet (createdOffer oo ao offer s).heap r = some pcr2 ∧
      pcr2.localDescription = some ans ∧
      pcr2.remoteDescription = pcr.remoteDescription := by
  refine ⟨?_, ?_, { pcr with localDescription := some ans }, ?_, rfl, rfl⟩ <;>
    cases h1 : oo.setLocalOk <;> cases h5 : ao.setRemoteOk <;>
      simp [createdOffer, createdAnswer, addTrace, setSessionDescriptionError,
        getPeerName, JsError.toMessage, hl, hr, h1, h2, h3, h4, h5,
        heapGet_heapModify_same, heapGet_heapModify_ne, hlr, hlr.symm, hgr]

/-- The offer-side outcomes of the C6 scenario: stage 1 succeeds, stage 2 is
rejected, stage 3 produces the stubbed answer. -/
def failStage2Offer : OfferOutcomes :=
  { setLocalOk := true, setRemoteOk := false, createAnswerResult := some answerDesc }

/-- Witness for C6: the in-call state with a rejected stage 2. -/
theorem stage2_failure_logged_stage3_attempted_witness :
    ("Failed to create session description: " ++ JsError.toMessage JsError.rejection ++ ".") ∈
        (createdOffer failStage2Offer okAnswer offerDesc twoPeerState).log ∧
    "remotePeerConnection createAnswer start." ∈
        (createdOffer failStage2Offer okAnswer offerDesc twoPeerState).log ∧
    ∃ pcr2, heapGet (createdOffer failStage2Offer okAnswer offerDesc twoPeerState).heap 1 =
        some pcr2 ∧
      pcr2.localDescription = some answerDesc ∧
      pcr2.remoteDescription = newPeerConnection.remoteDescription :=
  stage2_failure_logged_stage3_attempted twoPeerState 0 1 newPeerConnection
    offerDesc answerDesc failStage2Offer okAnswer rfl rfl (by decide) rfl rfl rfl rfl

/-- C7: when the awaited addIceCandidate of a relayed candidate fails, the
failure is logged tagged with the producing endpoint's name (as is the
subsequent candidate trace), no error escapes the relay handler, and the
session state — references and heap — is untouched. -/
theorem candidate_failure_logged_nonfatal (s : AppState) (l r t : Nat) (c : String)
    (hl : s.localPC = some l) (hr : s.remotePC = some r) :
    ∃ o, getOtherPeer s t = some o ∧
      (handleConnection ⟨t, some c⟩ false s).log =
        s.log ++ [getPeerName s t ++ " failed to add ICE Candidate.",
                  getPeerName s t ++ " ICE candidate:\n" ++ c] ∧
      (handleConnection ⟨t, some c⟩ false s).localPC = s.localPC ∧
      (handleConnection ⟨t, some c⟩ false s).remotePC = s.remotePC ∧
      (handleConnection ⟨t, some c⟩ false s).heap = s.heap := by
  by_cases hlt : l = t
  · subst hlt
    refine ⟨r, ?_, ?_, ?_, ?_, ?_⟩ <;>
      simp [handleConnection, getOtherPeer, getPeerName, hl, hr,
        handleConnectionFailure, addTrace]
  · refine ⟨l, ?_, ?_, ?_, ?_, ?_⟩ <;>
      simp [handleConnection, getOtherPeer, getPeerName, hl, hr, hlt,
        handleConnectionFailure, addTrace]

/-- Witness for C7: a failing candidate from the local peer connection in the
in-call state. -/
theorem candidate_failure_logged_nonfatal_witness :
    ∃ o, getOtherPeer twoPeerState 0 = some o ∧
      (handleConnection ⟨0, some "bad"⟩ false twoPeerState).log =
        twoPeerState.log ++
          [getPeerName twoPeerState 0 ++ " failed to add ICE Candidate.",
           getPeerName twoPeerState 0 ++ " ICE candidate:\nbad"] ∧
      (handleConnection ⟨0, some "bad"⟩ false twoPeerState).localPC = twoPeerState.localPC ∧
      (handleConnection ⟨0, some "bad"⟩ false twoPeerState).remotePC = twoPeerState.remotePC ∧
      (handleConnection ⟨0, some "bad"⟩ false twoPeerState).heap = twoPeerState.heap :=
  candidate_failure_logged_nonfatal twoPeerState 0 1 0 "bad" rfl rfl

/-- With a stream in hand, the call action never lets an error escape and
always installs two fresh, distinct peer connections. -/
theorem callAction_with_stream (t : AppState) (ms : MediaStream)
    (hms : t.localStream = some ms) (now : Nat) (orr : Option SessionDescription)
    (oo : OfferOutcomes) (ao : AnswerOutcomes) :
    (callAction now orr oo ao t).snd = none ∧
    (callAction now orr oo ao t).fst.localPC = some t.nextId ∧
    (callAction now orr oo ao t).fst.remotePC = some (t.nextId + 1) := by
  cases hv : ms.videoTrackLabels <;> cases ha : ms.audioTrackLabels <;> cases orr <;>
    simp [callAction, addTrace, setSessionDescriptionError, hms, hv, ha,
      createdOffer_localPC, createdOffer_remotePC]

/-- C10: after a hangup from a state with both peer connections, the two
references are cleared, the hangup trigger is disabled, the connect trigger
is re-enabled, the acquired stream is still held, and the call action can run
again on that state — reusing the stream, without a new start — with no error
and two fresh distinct peer connections. -/
theorem hangup_resets_for_reconnect (s : AppState) (l r : Nat) (ms : MediaStream)
    (hl : s.localPC = some l) (hr : s.remotePC = some r) (hms : s.localStream = some ms)
    (now : Nat) (orr : Option SessionDescription) (oo : OfferOutcomes) (ao : AnswerOutcomes) :
    (hangupAction s).snd = none ∧
    (hangupAction s).fst.localPC = none ∧
    (hangupAction s).fst.remotePC = none ∧
    (hangupAction s).fst.hangupButtonDisabled = true ∧
    (hangupAction s).fst.callButtonDisabled = false ∧
    (hangupAction s).fst.localStream = some ms ∧
    (callAction now orr oo ao (hangupAction s).fst).snd = none ∧
    ∃ lid rid, lid ≠ rid ∧
      (callAction now orr oo ao (hangupAction s).fst).fst.localPC = some lid ∧
      (callAction now orr oo ao (hangupAction s).fst).fst.remotePC = some rid := by
  have hfst : (hangupAction s).fst.localStream = some ms := by
    simp [hangupAction, hl, hr, addTrace, hms]
  obtain ⟨hsnd, hlp, hrp⟩ := callAction_with_stream (hangupAction s).fst ms hfst now orr oo ao
  refine ⟨?_, ?_, ?_, ?_, ?_, hfst, hsnd,
      (hangupAction s).fst.nextId, (hangupAction s).fst.nextId + 1, by omega, hlp, hrp⟩ <;>
    simp [hangupAction, hl, hr, addTrace]

/-- Witness for C10: hangup from the in-call state, then a fresh successful
call. -/
theorem hangup_resets_for_reconnect_witness :
    (hangupAction twoPeerState).snd = none ∧
    (hangupAction twoPeerState).fst.localPC = none ∧
    (hangupAction twoPeerState).fst.remotePC = none ∧
    (hangupAction twoPeerState).fst.hangupButtonDisabled = true ∧
    (hangupAction twoPeerState).fst.callButtonDisabled = false ∧
    (hangupAction twoPeerState).fst.localStream = some demoStream ∧
    (callAction 7 (some offerDesc) okOffer okAnswer (hangupAction twoPeerState).fst).snd = none ∧
    ∃ lid rid, lid ≠ rid ∧
      (callAction 7 (some offerDesc) okOffer okAnswer
          (hangupAction twoPeerState).fst).fst.localPC = some lid ∧
      (callAction 7 (some offerDesc) okOffer okAnswer
          (hangupAction twoPeerState).fst).fst.remotePC = some rid :=
  hangup_resets_for_reconnect twoPeerState 0 1 demoStream rfl rfl rfl 7
    (some offerDesc) okOffer okAnswer

end OpenDrop
